import Mathlib

/-!
Shallow embedding of the metrics-aggregation and sentiment pipeline of the
Normandy social-analytics dashboard.

Conventions of the embedding:
* JS numbers are modelled as exact rationals (counters as natural numbers);
  the claims under study are about the arithmetic formulas, not about
  floating-point rounding.
* JS `Date` values are modelled as calendar dates (year, 0-based month, day),
  in UTC; `new Date(ms)` is modelled by converting the epoch-millisecond value
  with the standard civil-from-days algorithm, and `new Date(string)` by the
  parse result the string would produce (`none` when the parse fails).
* Missing / undefined record fields are `Option.none`; JS truthiness of a
  numeric field `x` combined with `x > 0` is `0 < x.getD 0`.
* `x.toFixed(d)` followed by `parseFloat` is modelled by `toFixedQ d`
  (round to the nearest multiple of `10^-d`, ties toward the larger value,
  as the ECMAScript specification of `toFixed` prescribes).
-/

/-- Calendar date; `month` is 0-based (0 = January), matching JS `getMonth`. -/
structure SimpleDate where
  year : Int
  month : Nat
  day : Nat
deriving Repr, DecidableEq

/-- Civil date from a count of days since the Unix epoch (1970-01-01),
the standard era-based conversion algorithm. -/
def civilFromDays (z0 : Int) : SimpleDate :=
  let z : Int := z0 + 719468
  let era : Int := Int.fdiv z 146097
  let doe : Nat := (z - era * 146097).toNat
  let yoe : Nat := (doe - doe / 1460 + doe / 36524 - doe / 146096) / 365
  let y : Int := (yoe : Int) + era * 400
  let doy : Nat := doe - (365 * yoe + yoe / 4 - yoe / 100)
  let mp : Nat := (5 * doy + 2) / 153
  let d : Nat := doy - (153 * mp + 2) / 5 + 1
  let m : Nat := if mp < 10 then mp + 3 else mp - 9
  { year := if m ≤ 2 then y + 1 else y, month := m - 1, day := d }

/-- Model of `new Date(ms)` for a numeric argument: the date at `ms`
milliseconds since the Unix epoch. -/
def msToDate (ms : Int) : SimpleDate :=
  civilFromDays (Int.fdiv ms 86400000)

/-- Lexicographic order on calendar dates, as JS `Date` comparison induces. -/
def dateLe (a b : SimpleDate) : Bool :=
  decide (a.year < b.year ∨ (a.year = b.year ∧ (a.month < b.month ∨
    (a.month = b.month ∧ a.day ≤ b.day))))

/-- Result of feeding a raw date string to `new Date(...)`:
the string may be absent/empty (JS-falsy), unparseable, or parse to a date. -/
inductive JsDateStr where
  | missing
  | invalid
  | parsed (d : SimpleDate)
deriving Repr, DecidableEq

/-- A TikTok `createTime` value: absent, a date string (carried together with
its parse result), or a numeric Unix-seconds value. -/
inductive TikTokCreateTime where
  | missing
  | str (parsed : Option SimpleDate)
  | num (n : Int)
deriving Repr, DecidableEq

/-- A raw hashtag entry as it appears in post data: Instagram stores plain
strings, TikTok stores objects of shape `{name}`. -/
inductive JsTag where
  | str (s : String)
  | obj (name : String)
deriving Repr, DecidableEq

/-- An Instagram post record (the fields the engine reads). -/
structure InstagramPost where
  timestamp : JsDateStr := .missing
  likesCount : Option Nat := none
  commentsCount : Option Nat := none
  mediaType : Option String := none
  videoViewCount : Option Nat := none
  caption : Option String := none
  hashtags : List String := []
  sentimentScore : Option ℚ := none
  sentimentLabel : Option String := none
deriving Repr, DecidableEq

/-- A TikTok post record (the fields the engine reads). -/
structure TikTokPost where
  createTime : TikTokCreateTime := .missing
  diggCount : Option Nat := none
  commentCount : Option Nat := none
  shareCount : Option Nat := none
  collectCount : Option Nat := none
  playCount : Option Nat := none
  text : Option String := none
  hashtags : List JsTag := []
  sentimentScore : Option ℚ := none
  sentimentLabel : Option String := none
deriving Repr, DecidableEq

/-- SocialDataContext.calculateInstagramEngagementRate (the identical copy
appears as calculateEngagementRate in InstagramTopPostsSection): videos —
detected by `mediaType === 'video'` — with a positive view count get
((likes + comments) / views) * 100; everything else gets likes + comments,
with missing counters read as 0. -/
def calculateInstagramEngagementRate (post : InstagramPost) : ℚ :=
  let likes : ℚ := (post.likesCount.getD 0 : ℚ)
  let comments : ℚ := (post.commentsCount.getD 0 : ℚ)
  if post.mediaType = some "video" ∧ 0 < post.videoViewCount.getD 0 then
    (likes + comments) / (post.videoViewCount.getD 0 : ℚ) * 100
  else
    likes + comments

/-- SocialDataContext.calculateTikTokEngagementRate (the identical copy
appears as calculateEngagementRate in TikTokTopPostsSection). -/
def calculateTikTokEngagementRate (post : TikTokPost) : ℚ :=
  if 0 < post.playCount.getD 0 then
    ((post.diggCount.getD 0 : ℚ) + (post.commentCount.getD 0 : ℚ) +
      (post.shareCount.getD 0 : ℚ) + (post.collectCount.getD 0 : ℚ)) /
      (post.playCount.getD 0 : ℚ) * 100
  else
    0

/-- Model of ECMAScript `x.toFixed(digits)` read back with `parseFloat`:
round to the nearest multiple of `10^-digits`, ties to the larger value. -/
def toFixedQ (digits : Nat) (x : ℚ) : ℚ :=
  ((Int.floor (x * 10 ^ digits + 1 / 2) : ℤ) : ℚ) / 10 ^ digits

/-- The `monthMap` of SocialDataContext.filterData read backwards: the long
English month name for a 0-based month number (JS `toLocaleString` long
month, and `Object.keys(monthMap).find` in the source). -/
def monthLongName : Nat → Option String
  | 0 => some "January"
  | 1 => some "February"
  | 2 => some "March"
  | 3 => some "April"
  | 4 => some "May"
  | 5 => some "June"
  | 6 => some "July"
  | 7 => some "August"
  | 8 => some "September"
  | 9 => some "October"
  | 10 => some "November"
  | 11 => some "December"
  | _ => none

/-- The filter options the engine reads (brands/platform routing omitted:
the claims under study are about the date and month tests). -/
structure FilterOptions where
  selectedMonth : String
  dateStart : Option SimpleDate := none
  dateEnd : Option SimpleDate := none
deriving Repr, DecidableEq

/-- The `isInDateRange` conjunct of SocialDataContext.filterData:
a missing bound never excludes. -/
def dateRangeTest (start stop : Option SimpleDate) (d : SimpleDate) : Bool :=
  (match start with
    | none => true
    | some s => dateLe s d) &&
  (match stop with
    | none => true
    | some e => dateLe d e)

/-- The `isSelectedMonth` conjunct of SocialDataContext.filterData:
under "All (Feb-May)" the 0-based month must lie in 1..4 (February..May);
otherwise the month's long name must equal the selected month. -/
def filterMonthTest (selectedMonth : String) (d : SimpleDate) : Bool :=
  if selectedMonth = "All (Feb-May)" then decide (1 ≤ d.month ∧ d.month ≤ 4)
  else decide (monthLongName d.month = some selectedMonth)

/-- The per-post predicate of the Instagram branch of
SocialDataContext.filterData: missing or unparseable timestamps exclude the
post; otherwise it must be in the date range and match the month filter. -/
def instagramFilterPred (options : FilterOptions) (post : InstagramPost) : Bool :=
  match post.timestamp with
  | .missing => false
  | .invalid => false
  | .parsed d =>
    dateRangeTest options.dateStart options.dateEnd d &&
      filterMonthTest options.selectedMonth d

/-- The date the TikTok branch of SocialDataContext.filterData builds:
`new Date(post.createTime)` with no numeric/string discrimination, so a
numeric value is interpreted directly as epoch milliseconds. -/
def tiktokFilterDate : TikTokCreateTime → Option SimpleDate
  | .missing => none
  | .str p => p
  | .num n => some (msToDate n)

/-- The per-post predicate of the TikTok branch of
SocialDataContext.filterData. -/
def tiktokFilterPred (options : FilterOptions) (post : TikTokPost) : Bool :=
  match post.createTime with
  | .missing => false
  | ct =>
    match tiktokFilterDate ct with
    | none => false
    | some d =>
      dateRangeTest options.dateStart options.dateEnd d &&
        filterMonthTest options.selectedMonth d

/-- The date DashboardOverview.calculateTotalMetrics builds for a TikTok
post: `typeof createTime === 'string'` keeps the parsed string, a numeric
value is multiplied by 1000 (Unix seconds to milliseconds) first. -/
def dashboardTikTokDate : TikTokCreateTime → Option SimpleDate
  | .missing => none
  | .str p => p
  | .num n => some (msToDate (n * 1000))

/-- The month test of DashboardOverview.calculateTotalMetrics:
"All (Feb-May)" matches every post; otherwise long month names compare. -/
def dashboardMonthMatches (selectedMonth : String) (d : SimpleDate) : Bool :=
  selectedMonth = "All (Feb-May)" || decide (monthLongName d.month = some selectedMonth)

/-- Model of JS `String.prototype.toLowerCase` (character-wise lowering). -/
def jsToLower (s : String) : String := String.mk (s.data.map Char.toLower)

/-- Model of JS `String.prototype.trim` (strip whitespace at both ends). -/
def jsTrim (s : String) : String :=
  String.mk (((s.data.dropWhile Char.isWhitespace).reverse.dropWhile
    Char.isWhitespace).reverse)

/-- Whether the second character list begins the first. -/
def listStartsWith : List Char → List Char → Bool
  | _, [] => true
  | [], _ :: _ => false
  | a :: as, b :: bs => decide (a = b) && listStartsWith as bs

/-- Whether the pattern occurs as a contiguous segment of the list. -/
def listContainsSeg (l pat : List Char) : Bool :=
  match l with
  | [] => pat.isEmpty
  | _ :: rest => listStartsWith l pat || listContainsSeg rest pat

/-- Model of JS `String.prototype.includes`. -/
def containsSubstr (s pat : String) : Bool := listContainsSeg s.data pat.data

/-- Model of JS `tag.startsWith('#')`. -/
def startsWithHash (s : String) : Bool := listStartsWith s.data [Char.ofNat 35]

/-- Model of JS `tag.slice(1)` (drop the first character). -/
def sliceFrom1 (s : String) : String := String.mk (s.data.drop 1)

/-- EngagementSection.isInSelectedMonth (part_001): a missing selection or
one whose lowercasing contains "all" admits every post; otherwise the post's
long month name (absent for a missing or unparseable date) must equal the
selection. -/
def isInSelectedMonth (selectedMonth : Option String) (postDate : JsDateStr) : Bool :=
  match selectedMonth with
  | none => true
  | some sel =>
    if containsSubstr (jsToLower sel) "all" then true
    else
      match postDate with
      | .missing => false
      | .invalid => false
      | .parsed d => decide (monthLongName d.month = some sel)

/-- The video-post subset EngagementSection's Instagram aggregate uses:
note the capitalised comparison `mediaType === 'Video'`. -/
def igVideoPosts (brandPosts : List InstagramPost) : List InstagramPost :=
  brandPosts.filter fun p => decide (p.mediaType = some "Video")

/-- Sum of likes counters (missing read as 0), as the source's reduce. -/
def sumLikes (l : List InstagramPost) : ℚ :=
  (l.map fun p => (p.likesCount.getD 0 : ℚ)).sum

/-- Sum of comments counters (missing read as 0). -/
def sumComments (l : List InstagramPost) : ℚ :=
  (l.map fun p => (p.commentsCount.getD 0 : ℚ)).sum

/-- Sum of video view counters (missing read as 0). -/
def sumViews (l : List InstagramPost) : ℚ :=
  (l.map fun p => (p.videoViewCount.getD 0 : ℚ)).sum

/-- EngagementSection videoEngagementData, Instagram branch: per brand, the
video posts' summed likes+comments over summed views, times 100, rounded to
one decimal by `toFixed(1)`; `none` when the brand has no video posts
(the source returns null and filters those brands out). -/
def instagramVideoBrandER (brandPosts : List InstagramPost) : Option ℚ :=
  let videoPosts := igVideoPosts brandPosts
  if videoPosts.isEmpty then none
  else some (if 0 < sumViews videoPosts then
    toFixedQ 1 ((sumLikes videoPosts + sumComments videoPosts) / sumViews videoPosts * 100)
  else 0)

/-- Summed digg counters of a TikTok cohort (missing read as 0). -/
def ttSumDigg (l : List TikTokPost) : ℚ :=
  (l.map fun p => (p.diggCount.getD 0 : ℚ)).sum

/-- Summed comment counters of a TikTok cohort (missing read as 0). -/
def ttSumComment (l : List TikTokPost) : ℚ :=
  (l.map fun p => (p.commentCount.getD 0 : ℚ)).sum

/-- Summed share counters of a TikTok cohort (missing read as 0). -/
def ttSumShare (l : List TikTokPost) : ℚ :=
  (l.map fun p => (p.shareCount.getD 0 : ℚ)).sum

/-- Summed collect counters of a TikTok cohort (missing read as 0). -/
def ttSumCollect (l : List TikTokPost) : ℚ :=
  (l.map fun p => (p.collectCount.getD 0 : ℚ)).sum

/-- Summed play counters of a TikTok cohort (missing read as 0). -/
def ttSumPlay (l : List TikTokPost) : ℚ :=
  (l.map fun p => (p.playCount.getD 0 : ℚ)).sum

/-- EngagementSection videoEngagementData, TikTok branch
(totalPeriodAggregatedER / monthlyAggregatedER, identical arithmetic):
summed numerator counters over summed play count, times 100, rounded to two
decimals by `toFixed(2)`; 0 for an empty cohort or zero total plays. -/
def tiktokBrandAggregateER (brandPosts : List TikTokPost) : ℚ :=
  if brandPosts.isEmpty then 0
  else if 0 < ttSumPlay brandPosts then
    toFixedQ 2 ((ttSumDigg brandPosts + ttSumComment brandPosts +
      ttSumShare brandPosts + ttSumCollect brandPosts) / ttSumPlay brandPosts * 100)
  else 0

/-- The word-polarity lexicon of the external sentiment library
(an external collaborator: the AFINN dictionary of the `sentiment` npm
package); modelled as a parameter, a word's signed integer polarity
(0 for words outside the dictionary). -/
def Lexicon : Type := String → Int

/-- The record the sentiment library's `analyze` returns (the fields the
engine reads). -/
structure AnalyzeResult where
  score : Int
  positive : List String
  negative : List String
deriving Repr, DecidableEq

/-- The library's tokenization: lowercase the text and split it into
whitespace-separated words (empty fragments score 0 in the library, since
the dictionary has no empty key; the model drops them). -/
def splitOnSpaceAux : List Char → List Char → List (List Char)
  | [], cur => [cur.reverse]
  | c :: cs, cur =>
    if c = Char.ofNat 32 then cur.reverse :: splitOnSpaceAux cs []
    else splitOnSpaceAux cs (c :: cur)

/-- Word list of a text, as the sentiment library tokenizes it. -/
def tokenize (s : String) : List String :=
  ((splitOnSpaceAux (jsToLower s).data []).map String.mk).filter fun w =>
    decide (w ≠ "")

/-- Model of `sentimentAnalyzer.analyze(text)`: additive score over the
tokens, plus the matched positive and negative word lists. -/
def analyze (lex : Lexicon) (text : String) : AnalyzeResult :=
  let toks := tokenize text
  { score := (toks.map lex).sum
    positive := toks.filter fun w => decide (0 < lex w)
    negative := toks.filter fun w => decide (lex w < 0) }

/-- SENTIMENT_THRESHOLDS.POSITIVE of recalculateSentiment (part_002). -/
def sentimentThresholdPositive : ℚ := 3 / 2

/-- SENTIMENT_THRESHOLDS.NEGATIVE of recalculateSentiment (part_002). -/
def sentimentThresholdNegative : ℚ := -(3 / 2)

/-- SENTIMENT_THRESHOLDS.MAX_SCALE of recalculateSentiment (part_002). -/
def sentimentMaxScale : ℚ := 5

/-- The scaling of recalculateAllSentiment:
clamp raw * (MAX_SCALE / 5) into [-MAX_SCALE, MAX_SCALE]. -/
def scaleRecalcScore (raw : Int) : ℚ :=
  max (-sentimentMaxScale) (min sentimentMaxScale
    ((raw : ℚ) * (sentimentMaxScale / 5)))

/-- The label assignment of recalculateAllSentiment: positive at or above
the positive threshold, negative at or below the negative one, else neutral. -/
def recalcLabel (scaledScore : ℚ) : String :=
  if sentimentThresholdPositive ≤ scaledScore then "positive"
  else if scaledScore ≤ sentimentThresholdNegative then "negative"
  else "neutral"

/-- The per-post body of recalculateAllSentiment (part_002; the Instagram
and TikTok loops are verbatim copies over caption resp. text): posts with a
JS-falsy caption are skipped untouched, others get the scaled score and its
threshold label written back. The Bool records whether the sentiment
analyzer was invoked on the post. -/
def recalcInstagramPost (lex : Lexicon) (post : InstagramPost) :
    InstagramPost × Bool :=
  match post.caption with
  | none => (post, false)
  | some c =>
    if c = "" then (post, false)
    else
      let result := analyze lex c
      let scaledScore := scaleRecalcScore result.score
      ({ post with
          sentimentScore := some scaledScore,
          sentimentLabel := some (recalcLabel scaledScore) }, true)

/-- The record analyzeTextSentiment (part_002) returns. -/
structure DetailedSentimentAnalysis where
  score : ℚ
  label : String
  positiveWords : List String
  negativeWords : List String
deriving Repr, DecidableEq

/-- analyzeTextSentiment (part_002): missing / non-string / whitespace-only
text returns the neutral record without touching the analyzer; otherwise the
raw score is halved, clamped to [-5, 5], rounded to two decimals, and the
label is chosen by the SIGN of the normalized score. The Bool records
whether the sentiment analyzer was invoked. -/
def analyzeTextSentiment (lex : Lexicon) (text : Option String) :
    DetailedSentimentAnalysis × Bool :=
  match text with
  | none =>
    ({ score := 0, label := "Neutral", positiveWords := [], negativeWords := [] },
      false)
  | some t =>
    if jsTrim t = "" then
      ({ score := 0, label := "Neutral", positiveWords := [], negativeWords := [] },
        false)
    else
      let result := analyze lex t
      let normalizedScore : ℚ := max (-5) (min 5 ((result.score : ℚ) / 2))
      let label :=
        if 0 < normalizedScore then "Positive"
        else if normalizedScore < 0 then "Negative"
        else "Neutral"
      ({ score := toFixedQ 2 normalizedScore, label := label,
         positiveWords := result.positive, negativeWords := result.negative },
        true)

/-- The per-post classification of DashboardOverview.calculateSentiment
(lines 479-482): categories are chosen by the SIGN of the RAW library
score. -/
def dashboardSentimentCategory (lex : Lexicon) (caption : String) : String :=
  let result := analyze lex caption
  if 0 < result.score then "positive"
  else if result.score < 0 then "negative"
  else "neutral"

/-- The per-tag normalization of HashtagSection.extractHashtags: skip
JS-falsy tags, strip one leading "#", lowercase, trim, and skip tags that
normalize to the empty string. -/
def extractHashtagsNormalize (tag : String) : Option String :=
  if tag = "" then none
  else
    let tagName := if startsWithHash tag then sliceFrom1 tag else tag
    let lowerTag := jsTrim (jsToLower tagName)
    if lowerTag = "" then none else some lowerTag

/-- The per-tag normalization of the Total-Mentions tally of HashtagSection
(lines 354-378 and its competitor copy): falsy tags are skipped and the key
is `tag.toLowerCase()` alone — no "#"-stripping, no trimming. -/
def totalMentionsNormalize (tag : String) : Option String :=
  if tag = "" then none else some (jsToLower tag)

/-- How often a key is hit in a tally built from normalized tags. -/
def tallyCount (norm : String → Option String) (tags : List String)
    (key : String) : Nat :=
  (tags.filterMap norm).count key

/-- The count extractHashtags accumulates under a given key. -/
def extractHashtagsCount (tags : List String) (key : String) : Nat :=
  tallyCount extractHashtagsNormalize tags key

/-- The count the Total-Mentions tally accumulates under a given key. -/
def totalMentionsCount (tags : List String) (key : String) : Nat :=
  tallyCount totalMentionsNormalize tags key

/-- A JS runtime exception. -/
inductive JsError where
  | typeError (msg : String)
deriving Repr, DecidableEq

/-- JS truthiness of a raw hashtag entry: an object is always truthy, a
string only when nonempty. -/
def jsTagTruthy : JsTag → Bool
  | .str s => decide (s ≠ "")
  | .obj _ => true

/-- One iteration of the TikTok (else) branch of
HashtagSection.extractHashtags: the branch casts the post to InstagramPost
and runs the STRING pipeline on each tag, so a TikTok `{name}` object — which
is truthy but has no `startsWith` method — raises a TypeError. -/
def extractHashtagsTikTokTag : JsTag → Except JsError (Option String)
  | .str s =>
    if s = "" then .ok none
    else
      let tagName := if startsWithHash s then sliceFrom1 s else s
      let lowerTag := jsTrim (jsToLower tagName)
      .ok (if lowerTag = "" then none else some lowerTag)
  | .obj _ => .error (.typeError "tag.startsWith is not a function")

/-- The TikTok branch of HashtagSection.extractHashtags over a post's tag
list: the normalized keys in order, or the first raised TypeError. -/
def extractHashtagsTikTok : List JsTag → Except JsError (List String)
  | [] => .ok []
  | tag :: rest =>
    match extractHashtagsTikTokTag tag with
    | .error e => .error e
    | .ok none => extractHashtagsTikTok rest
    | .ok (some k) =>
      match extractHashtagsTikTok rest with
      | .error e => .error e
      | .ok ks => .ok (k :: ks)

/-- The TikTok pre-filter of HashtagSection.filteredPosts: a TikTok post is
kept when its hashtags array has some entry with a truthy `name` (a plain
string entry has no `name` field, hence contributes nothing). -/
def tiktokHashtagPreFilter (post : TikTokPost) : Bool :=
  post.hashtags.any fun t =>
    match t with
    | .obj n => decide (n ≠ "")
    | .str _ => false

/-- A concrete one-word lexicon used to instantiate the lexicon parameter
in counterexamples and witnesses: the word "good" has polarity 1. -/
def lexGood : Lexicon := fun w => if w = "good" then 1 else 0

/-- C1 counterexample: the code gives a lowercase-"video" post with zero
views likes + comments = 15 instead of the claimed 0, and gives a
capitalised-"Video" post with 1000 views the raw count 10 instead of the
claimed ratio ((10 + 0) / 1000) * 100 = 1. -/
theorem instagram_engagement_claim_counterexample :
    calculateInstagramEngagementRate
      { mediaType := some "video", likesCount := some 10,
        commentsCount := some 5, videoViewCount := some 0 } = 15 ∧
    (15 : ℚ) ≠ 0 ∧
    calculateInstagramEngagementRate
      { mediaType := some "Video", likesCount := some 10,
        videoViewCount := some 1000 } = 10 ∧
    ((10 : ℚ) + 0) / 1000 * 100 = 1 ∧ (10 : ℚ) ≠ 1 := by
  refine ⟨?_, by norm_num, ?_, by norm_num, by norm_num⟩
  · norm_num [calculateInstagramEngagementRate]
  · norm_num [calculateInstagramEngagementRate]
    decide

/-- C1 amended: the per-post Instagram rate is the percentage ratio exactly
when mediaType is the lowercase string "video" and the view count is
positive; in every other case — Image, Sidecar, the capitalised "Video",
and videos with zero or missing view count — it is likes + comments, with
missing counters read as 0. -/
theorem instagram_engagement_amended (post : InstagramPost) :
    (post.mediaType = some "video" → 0 < post.videoViewCount.getD 0 →
      calculateInstagramEngagementRate post =
        ((post.likesCount.getD 0 : ℚ) + (post.commentsCount.getD 0 : ℚ)) /
          (post.videoViewCount.getD 0 : ℚ) * 100) ∧
    (¬(post.mediaType = some "video" ∧ 0 < post.videoViewCount.getD 0) →
      calculateInstagramEngagementRate post =
        (post.likesCount.getD 0 : ℚ) + (post.commentsCount.getD 0 : ℚ)) := by
  constructor
  · intro h1 h2
    simp only [calculateInstagramEngagementRate]
    rw [if_pos ⟨h1, h2⟩]
  · intro h
    simp only [calculateInstagramEngagementRate]
    rw [if_neg h]

/-- Witness for the amended C1 at a concrete video post and an image post. -/
theorem instagram_engagement_amended_witness :
    calculateInstagramEngagementRate
      { mediaType := some "video", likesCount := some 10,
        commentsCount := some 5, videoViewCount := some 200 } = 15 / 2 ∧
    calculateInstagramEngagementRate
      { mediaType := some "Image", likesCount := some 20,
        commentsCount := some 5 } = 25 := by
  constructor
  · have h := (instagram_engagement_amended
      { mediaType := some "video", likesCount := some 10,
        commentsCount := some 5, videoViewCount := some 200 }).1 rfl (by decide)
    rw [h]; norm_num
  · have h := (instagram_engagement_amended
      { mediaType := some "Image", likesCount := some 20,
        commentsCount := some 5 }).2 (by decide)
    rw [h]; norm_num

/-- C8: for every TikTok post the per-post engagement rate is
((digg + comment + share + collect) / playCount) * 100 with missing
counters read as 0, and is 0 whenever playCount is 0 or missing, so the
division branch never runs with a zero denominator. -/
theorem tiktok_engagement_rate_formula (post : TikTokPost) :
    (0 < post.playCount.getD 0 →
      calculateTikTokEngagementRate post =
        ((post.diggCount.getD 0 : ℚ) + (post.commentCount.getD 0 : ℚ) +
          (post.shareCount.getD 0 : ℚ) + (post.collectCount.getD 0 : ℚ)) /
          (post.playCount.getD 0 : ℚ) * 100) ∧
    (post.playCount.getD 0 = 0 → calculateTikTokEngagementRate post = 0) := by
  constructor
  · intro h
    simp only [calculateTikTokEngagementRate]
    rw [if_pos h]
  · intro h
    simp only [calculateTikTokEngagementRate]
    rw [if_neg (by rw [h]; exact lt_irrefl 0)]

/-- Witness for C8 at a post with 8 plays and at a post with no playCount. -/
theorem tiktok_engagement_rate_formula_witness :
    calculateTikTokEngagementRate
      { diggCount := some 2, commentCount := some 1, shareCount := some 1,
        collectCount := some 0, playCount := some 8 } = 50 ∧
    calculateTikTokEngagementRate { diggCount := some 7 } = 0 := by
  constructor
  · have h := (tiktok_engagement_rate_formula
      { diggCount := some 2, commentCount := some 1, shareCount := some 1,
        collectCount := some 0, playCount := some 8 }).1 (by decide)
    rw [h]; norm_num
  · exact (tiktok_engagement_rate_formula { diggCount := some 7 }).2 rfl

/-- C2 counterexample: a one-post Instagram video cohort with 1 like and
3 views: the code's aggregate is toFixed(1) of (1/3)*100, namely 33.3,
which is not the exact ratio of sums (1/3)*100 = 100/3. -/
theorem aggregate_er_claim_counterexample :
    instagramVideoBrandER
      [{ mediaType := some "Video", likesCount := some 1,
         videoViewCount := some 3 }] = some (333 / 10) ∧
    (333 / 10 : ℚ) ≠ ((1 : ℚ) + 0) / 3 * 100 := by
  constructor
  · norm_num [instagramVideoBrandER, igVideoPosts, sumLikes, sumComments,
      sumViews, toFixedQ, List.filter]
  · norm_num

/-- C2 amended: the brand-cohort aggregate engagement rate is the ratio of
summed counters times 100, rounded by toFixed — one decimal for the
Instagram video aggregate, two decimals for the TikTok aggregate — and it is
not the arithmetic mean of per-post rates: on the 2-post TikTok cohort below
the aggregate is 1 while the mean of per-post rates is 50. -/
theorem aggregate_er_amended (igPosts : List InstagramPost)
    (ttPosts : List TikTokPost) :
    (igVideoPosts igPosts ≠ [] → 0 < sumViews (igVideoPosts igPosts) →
      instagramVideoBrandER igPosts = some (toFixedQ 1
        ((sumLikes (igVideoPosts igPosts) + sumComments (igVideoPosts igPosts)) /
          sumViews (igVideoPosts igPosts) * 100))) ∧
    (ttPosts ≠ [] → 0 < ttSumPlay ttPosts →
      tiktokBrandAggregateER ttPosts = toFixedQ 2
        ((ttSumDigg ttPosts + ttSumComment ttPosts + ttSumShare ttPosts +
          ttSumCollect ttPosts) / ttSumPlay ttPosts * 100)) ∧
    (tiktokBrandAggregateER
        [{ diggCount := some 1, playCount := some 1 },
         { playCount := some 99 }] = 1 ∧
      (calculateTikTokEngagementRate { diggCount := some 1, playCount := some 1 } +
        calculateTikTokEngagementRate { playCount := some 99 }) / 2 = 50 ∧
      (1 : ℚ) ≠ 50) := by
  refine ⟨?_, ?_, ?_, ?_, by norm_num⟩
  · intro hne hpos
    simp only [instagramVideoBrandER]
    rw [if_neg (by simpa using hne), if_pos hpos]
  · intro hne hpos
    simp only [tiktokBrandAggregateER]
    rw [if_neg (by simpa using hne), if_pos hpos]
  · norm_num [tiktokBrandAggregateER, ttSumDigg, ttSumComment, ttSumShare,
      ttSumCollect, ttSumPlay, toFixedQ]
  · norm_num [calculateTikTokEngagementRate]

/-- Witness for the amended C2 at the one-post Instagram cohort and a
one-post TikTok cohort. -/
theorem aggregate_er_amended_witness :
    instagramVideoBrandER
      [{ mediaType := some "Video", likesCount := some 100,
         commentsCount := some 50, videoViewCount := some 3000 }] =
      some (toFixedQ 1 (((100 : ℚ) + 50) / 3000 * 100)) ∧
    tiktokBrandAggregateER [{ diggCount := some 1, playCount := some 100 }] =
      toFixedQ 2 (((1 : ℚ) + 0 + 0 + 0) / 100 * 100) := by
  constructor
  · have h := (aggregate_er_amended
      [{ mediaType := some "Video", likesCount := some 100,
         commentsCount := some 50, videoViewCount := some 3000 }] []).1
      (by decide)
      (by norm_num [sumViews, igVideoPosts, List.filter])
    rw [h]
    norm_num [sumLikes, sumComments, sumViews, igVideoPosts, List.filter]
  · have h := (aggregate_er_amended []
      [{ diggCount := some 1, playCount := some 100 }]).2.1
      (by decide)
      (by norm_num [ttSumPlay])
    rw [h]
    norm_num [ttSumDigg, ttSumComment, ttSumShare, ttSumCollect, ttSumPlay]

/-- C3 counterexample: under a lexicon giving the word "good" polarity 1,
the single-post detail path labels "good" Positive at normalized score 1/2,
although 1/2 is strictly below the claimed positive threshold 3/2 (the
claim would label it neutral); the dashboard classifier likewise labels by
sign at raw score 1. -/
theorem sentiment_thresholds_claim_counterexample :
    (analyzeTextSentiment lexGood (some "good")).1.score = 1 / 2 ∧
    (analyzeTextSentiment lexGood (some "good")).1.label = "Positive" ∧
    ¬(sentimentThresholdPositive ≤ 1 / 2) ∧
    (analyze lexGood "good").score = 1 ∧
    dashboardSentimentCategory lexGood "good" = "positive" := by
  have ha : analyze lexGood "good" = { score := 1, positive := ["good"], negative := [] } := by
    decide
  have ht : jsTrim "good" = "good" := by decide
  have hne : ¬("good" = "") := by decide
  refine ⟨?_, ?_, ?_, ?_, ?_⟩
  · simp only [analyzeTextSentiment, ht, ha]
    rw [if_neg hne]
    norm_num [toFixedQ]
  · simp only [analyzeTextSentiment, ht, ha]
    rw [if_neg hne]
    norm_num
  · norm_num [sentimentThresholdPositive]
  · rw [ha]
  · simp only [dashboardSentimentCategory, ha]
    norm_num

/-- The bulk-path label is "positive" exactly at or above the positive
threshold. -/
theorem recalcLabel_positive_iff (s : ℚ) :
    recalcLabel s = "positive" ↔ sentimentThresholdPositive ≤ s := by
  by_cases h1 : sentimentThresholdPositive ≤ s
  · simp [recalcLabel, h1]
  · by_cases h2 : s ≤ sentimentThresholdNegative
    · simp [recalcLabel, h1, h2]
    · simp [recalcLabel, h1, h2]

/-- The bulk-path label is "negative" exactly at or below the negative
threshold. -/
theorem recalcLabel_negative_iff (s : ℚ) :
    recalcLabel s = "negative" ↔ s ≤ sentimentThresholdNegative := by
  by_cases h1 : sentimentThresholdPositive ≤ s
  · simp only [recalcLabel, if_pos h1]
    constructor
    · intro h; exact absurd h (by decide)
    · intro h
      exact absurd (le_trans h1 h)
        (by norm_num [sentimentThresholdPositive, sentimentThresholdNegative])
  · by_cases h2 : s ≤ sentimentThresholdNegative
    · simp [recalcLabel, h1, h2]
    · simp [recalcLabel, h1, h2]

/-- The bulk-path label is "neutral" exactly strictly between the two
thresholds. -/
theorem recalcLabel_neutral_iff (s : ℚ) :
    recalcLabel s = "neutral" ↔
      sentimentThresholdNegative < s ∧ s < sentimentThresholdPositive := by
  by_cases h1 : sentimentThresholdPositive ≤ s
  · simp [recalcLabel, h1]
  · by_cases h2 : s ≤ sentimentThresholdNegative
    · simp [recalcLabel, h1, h2]
    · simp [recalcLabel, h1, h2, lt_of_not_le h2, lt_of_not_le h1]

/-- Sign-classification law for the detail path's label expression. -/
theorem signLabelQ_iff (n : ℚ) :
    ((if 0 < n then "Positive" else if n < 0 then "Negative" else "Neutral") =
        "Positive" ↔ 0 < n) ∧
    ((if 0 < n then "Positive" else if n < 0 then "Negative" else "Neutral") =
        "Negative" ↔ n < 0) ∧
    ((if 0 < n then "Positive" else if n < 0 then "Negative" else "Neutral") =
        "Neutral" ↔ n = 0) := by
  rcases lt_trichotomy n 0 with h | h | h
  · have hp : ¬ 0 < n := by linarith
    have hz : n ≠ 0 := ne_of_lt h
    simp [hp, h, hz]
  · subst h
    norm_num
    exact ⟨by decide, by decide⟩
  · have hn : ¬ n < 0 := by linarith
    have hz : n ≠ 0 := ne_of_gt h
    simp [h, hn, hz]

/-- Sign-classification law for the dashboard classifier's label
expression. -/
theorem signLabelInt_iff (n : Int) :
    ((if 0 < n then "positive" else if n < 0 then "negative" else "neutral") =
        "positive" ↔ 0 < n) ∧
    ((if 0 < n then "positive" else if n < 0 then "negative" else "neutral") =
        "negative" ↔ n < 0) ∧
    ((if 0 < n then "positive" else if n < 0 then "negative" else "neutral") =
        "neutral" ↔ n = 0) := by
  rcases lt_trichotomy n 0 with h | h | h
  · have hp : ¬ 0 < n := by omega
    have hz : n ≠ 0 := by omega
    simp [hp, h, hz]
  · subst h
    norm_num
    exact ⟨by decide, by decide⟩
  · have hn : ¬ n < 0 := by omega
    have hz : n ≠ 0 := by omega
    simp [h, hn, hz]

/-- C3 amended: the bulk recalculation path labels via the fixed thresholds
(positive iff the scaled score is at least 3/2, negative iff it is at most
-3/2, neutral strictly between); the single-post detail path and the
dashboard overview classifier instead label by the SIGN of the normalized
resp. raw score. -/
theorem sentiment_labeling_amended (lex : Lexicon) (post : InstagramPost)
    (c : String) (hc : post.caption = some c) (hne : c ≠ "") :
    (∃ s : ℚ,
      ((recalcInstagramPost lex post).1).sentimentScore = some s ∧
      (((recalcInstagramPost lex post).1).sentimentLabel = some "positive" ↔
        sentimentThresholdPositive ≤ s) ∧
      (((recalcInstagramPost lex post).1).sentimentLabel = some "negative" ↔
        s ≤ sentimentThresholdNegative) ∧
      (((recalcInstagramPost lex post).1).sentimentLabel = some "neutral" ↔
        sentimentThresholdNegative < s ∧ s < sentimentThresholdPositive)) ∧
    (jsTrim c ≠ "" → ∃ s : ℚ,
      ((analyzeTextSentiment lex (some c)).1).score = toFixedQ 2 s ∧
      (((analyzeTextSentiment lex (some c)).1).label = "Positive" ↔ 0 < s) ∧
      (((analyzeTextSentiment lex (some c)).1).label = "Negative" ↔ s < 0) ∧
      (((analyzeTextSentiment lex (some c)).1).label = "Neutral" ↔ s = 0)) ∧
    ((dashboardSentimentCategory lex c = "positive" ↔
        0 < (analyze lex c).score) ∧
      (dashboardSentimentCategory lex c = "negative" ↔
        (analyze lex c).score < 0) ∧
      (dashboardSentimentCategory lex c = "neutral" ↔
        (analyze lex c).score = 0)) := by
  refine ⟨?_, ?_, ?_⟩
  · have hrec : (recalcInstagramPost lex post).1 =
        { post with
            sentimentScore := some (scaleRecalcScore (analyze lex c).score),
            sentimentLabel :=
              some (recalcLabel (scaleRecalcScore (analyze lex c).score)) } := by
      simp only [recalcInstagramPost, hc]
      rw [if_neg hne]
    refine ⟨scaleRecalcScore (analyze lex c).score, ?_, ?_, ?_, ?_⟩ <;> rw [hrec]
    · simp [recalcLabel_positive_iff]
    · simp [recalcLabel_negative_iff]
    · simp [recalcLabel_neutral_iff]
  · intro htrim
    have hdet : (analyzeTextSentiment lex (some c)).1 =
        { score := toFixedQ 2 (max (-5) (min 5 (((analyze lex c).score : ℚ) / 2))),
          label := if 0 < max (-5) (min 5 (((analyze lex c).score : ℚ) / 2))
            then "Positive"
            else if max (-5) (min 5 (((analyze lex c).score : ℚ) / 2)) < 0
            then "Negative" else "Neutral",
          positiveWords := (analyze lex c).positive,
          negativeWords := (analyze lex c).negative } := by
      simp only [analyzeTextSentiment]
      rw [if_neg htrim]
    refine ⟨max (-5) (min 5 (((analyze lex c).score : ℚ) / 2)),
      ?_, ?_, ?_, ?_⟩ <;> rw [hdet]
    · exact (signLabelQ_iff _).1
    · exact (signLabelQ_iff _).2.1
    · exact (signLabelQ_iff _).2.2
  · have hd : dashboardSentimentCategory lex c =
        if 0 < (analyze lex c).score then "positive"
        else if (analyze lex c).score < 0 then "negative" else "neutral" := rfl
    rw [hd]
    exact signLabelInt_iff _

/-- Witness for the amended C3: at the one-word lexicon and the caption
"good" the dashboard classifier's positive category coincides with a
positive raw score. -/
theorem sentiment_labeling_amended_witness :
    dashboardSentimentCategory lexGood "good" = "positive" ↔
      0 < (analyze lexGood "good").score :=
  (sentiment_labeling_amended lexGood { caption := some "good" } "good" rfl
    (by decide)).2.2.1

/-- C4 counterexample: EngagementSection's isInSelectedMonth returns true
for a June 2023 post under the selection "All (Feb-May)" — a post dated
outside the February-May span is NOT excluded on that path. -/
theorem month_filter_all_claim_counterexample :
    isInSelectedMonth (some "All (Feb-May)") (.parsed ⟨2023, 5, 15⟩) = true ∧
    ¬(1 ≤ (⟨2023, 5, 15⟩ : SimpleDate).month ∧
      (⟨2023, 5, 15⟩ : SimpleDate).month ≤ 4) := by
  constructor
  · decide
  · decide

/-- C4 amended: in SocialDataContext.filterData the "All (Feb-May)"
selection includes exactly the posts whose timestamp parses and whose date
passes the date range and has month February..May; but in
EngagementSection's isInSelectedMonth any selection whose lowercasing
contains "all" — including "All (Feb-May)" — admits every post, regardless
of its month. -/
theorem month_filter_all_amended (options : FilterOptions)
    (post : InstagramPost) (tpost : TikTokPost)
    (hsel : options.selectedMonth = "All (Feb-May)") :
    (instagramFilterPred options post = true ↔
      ∃ d, post.timestamp = .parsed d ∧
        dateRangeTest options.dateStart options.dateEnd d = true ∧
        1 ≤ d.month ∧ d.month ≤ 4) ∧
    (tiktokFilterPred options tpost = true ↔
      ∃ d, tpost.createTime ≠ .missing ∧
        tiktokFilterDate tpost.createTime = some d ∧
        dateRangeTest options.dateStart options.dateEnd d = true ∧
        1 ≤ d.month ∧ d.month ≤ 4) ∧
    (∀ postDate : JsDateStr,
      isInSelectedMonth (some "All (Feb-May)") postDate = true) := by
  refine ⟨?_, ?_, ?_⟩
  · cases hts : post.timestamp with
    | missing => simp [instagramFilterPred, hts]
    | invalid => simp [instagramFilterPred, hts]
    | parsed d =>
      simp [instagramFilterPred, hts, filterMonthTest, hsel]
  · cases hct : tpost.createTime with
    | missing => simp [tiktokFilterPred, hct]
    | str p =>
      cases p with
      | none => simp [tiktokFilterPred, hct, tiktokFilterDate]
      | some d =>
        simp [tiktokFilterPred, hct, tiktokFilterDate, filterMonthTest, hsel]
    | num n =>
      simp [tiktokFilterPred, hct, tiktokFilterDate, filterMonthTest, hsel]
  · intro postDate
    have hall : containsSubstr (jsToLower "All (Feb-May)") "all" = true := by
      decide
    simp [isInSelectedMonth, hall]

/-- Witness for the amended C4: under "All (Feb-May)" with no date bounds a
March post is included and a June post is excluded by filterData's
Instagram predicate. -/
theorem month_filter_all_amended_witness :
    instagramFilterPred ⟨"All (Feb-May)", none, none⟩
      { timestamp := .parsed ⟨2023, 2, 10⟩ } = true ∧
    instagramFilterPred ⟨"All (Feb-May)", none, none⟩
      { timestamp := .parsed ⟨2023, 5, 15⟩ } = false := by
  constructor
  · exact (month_filter_all_amended ⟨"All (Feb-May)", none, none⟩
      { timestamp := .parsed ⟨2023, 2, 10⟩ } {} rfl).1.mpr
      ⟨⟨2023, 2, 10⟩, rfl, rfl, by decide, by decide⟩
  · have h := (month_filter_all_amended ⟨"All (Feb-May)", none, none⟩
      { timestamp := .parsed ⟨2023, 5, 15⟩ } {} rfl).1
    rcases Bool.eq_false_or_eq_true (instagramFilterPred
      ⟨"All (Feb-May)", none, none⟩ { timestamp := .parsed ⟨2023, 5, 15⟩ }) with ht | hf
    · rcases h.mp ht with ⟨d, hd, _, hm1, hm2⟩
      cases JsDateStr.parsed.inj hd
      exact absurd (And.intro hm1 hm2) (by decide)
    · exact hf

/-- C10: the month predicates used when filtering depend only on the
calendar month of the post's date, never on its year (or day): both
filterData's month test and EngagementSection's isInSelectedMonth agree on
any two dates sharing a month; under "February" a February date of any year
passes, under "All (Feb-May)" any February..May date of any year passes;
and filterData's whole predicate is exactly the conjunction of the date
range test and the month test, so only the date range conjunct can exclude
other years. -/
theorem month_test_ignores_year :
    (∀ (sel : String) (y y' : Int) (m dd dd' : Nat),
      filterMonthTest sel ⟨y, m, dd⟩ = filterMonthTest sel ⟨y', m, dd'⟩) ∧
    (∀ (sel : Option String) (y y' : Int) (m dd dd' : Nat),
      isInSelectedMonth sel (.parsed ⟨y, m, dd⟩) =
        isInSelectedMonth sel (.parsed ⟨y', m, dd'⟩)) ∧
    (∀ (y : Int) (dd : Nat), filterMonthTest "February" ⟨y, 1, dd⟩ = true) ∧
    (∀ (y : Int) (m dd : Nat), 1 ≤ m → m ≤ 4 →
      filterMonthTest "All (Feb-May)" ⟨y, m, dd⟩ = true) ∧
    (∀ (y : Int) (dd : Nat),
      isInSelectedMonth (some "February") (.parsed ⟨y, 1, dd⟩) = true) ∧
    (∀ (y : Int) (m dd : Nat), 1 ≤ m → m ≤ 4 →
      isInSelectedMonth (some "All (Feb-May)") (.parsed ⟨y, m, dd⟩) = true) ∧
    (∀ (options : FilterOptions) (post : InstagramPost) (d : SimpleDate),
      post.timestamp = .parsed d →
      instagramFilterPred options post =
        (dateRangeTest options.dateStart options.dateEnd d &&
          filterMonthTest options.selectedMonth d)) := by
  refine ⟨?_, ?_, ?_, ?_, ?_, ?_, ?_⟩
  · intro sel y y' m dd dd'
    rfl
  · intro sel y y' m dd dd'
    cases sel with
    | none => rfl
    | some s => rfl
  · intro y dd
    rfl
  · intro y m dd h1 h2
    simp [filterMonthTest]
    omega
  · intro y dd
    rfl
  · intro y m dd h1 h2
    have hall : containsSubstr (jsToLower "All (Feb-May)") "all" = true := by
      decide
    simp [isInSelectedMonth, hall]
  · intro options post d hts
    simp [instagramFilterPred, hts]

/-- Witness for C10: the February month test passes for a 1999 date and a
2023 date alike under "February" and under "All (Feb-May)". -/
theorem month_test_ignores_year_witness :
    filterMonthTest "February" ⟨1999, 1, 3⟩ = true ∧
    filterMonthTest "All (Feb-May)" ⟨1999, 1, 3⟩ = true ∧
    isInSelectedMonth (some "February") (.parsed ⟨2024, 1, 29⟩) = true := by
  refine ⟨?_, ?_, ?_⟩
  · exact month_test_ignores_year.2.2.1 1999 3
  · exact month_test_ignores_year.2.2.2.1 1999 1 3 (by decide) (by decide)
  · exact month_test_ignores_year.2.2.2.2.1 2024 29

/-- C5 counterexample: in the bulk recalculation path a whitespace-only
caption " " is truthy, so the sentiment analyzer IS invoked on it; and a
post with an empty caption is skipped untouched, so a stale score of 3 is
left in place rather than a computed 0. -/
theorem sentiment_empty_claim_counterexample :
    (recalcInstagramPost lexGood { caption := some " " }).2 = true ∧
    (recalcInstagramPost lexGood
      { caption := some "", sentimentScore := some 3 }).1.sentimentScore =
      some 3 ∧
    some (3 : ℚ) ≠ some (0 : ℚ) := by
  refine ⟨by decide, rfl, ?_⟩
  simp

/-- C5 amended: the single-post detail path returns score 0, label Neutral
and empty word lists for missing or whitespace-only text without invoking
the analyzer; the bulk path skips posts with a missing or empty caption
without touching their sentiment fields, and on a whitespace-only (but
nonempty, hence truthy) caption it DOES invoke the analyzer, still ending
at score 0 and label neutral. -/
theorem sentiment_empty_amended (lex : Lexicon) (t : String)
    (post : InstagramPost) :
    (analyzeTextSentiment lex none =
      ({ score := 0, label := "Neutral", positiveWords := [],
         negativeWords := [] }, false)) ∧
    (jsTrim t = "" → analyzeTextSentiment lex (some t) =
      ({ score := 0, label := "Neutral", positiveWords := [],
         negativeWords := [] }, false)) ∧
    (post.caption = none → recalcInstagramPost lex post = (post, false)) ∧
    (post.caption = some "" → recalcInstagramPost lex post = (post, false)) ∧
    (∀ c, post.caption = some c → c ≠ "" → tokenize c = [] →
      (recalcInstagramPost lex post).2 = true ∧
      (recalcInstagramPost lex post).1.sentimentScore = some 0 ∧
      (recalcInstagramPost lex post).1.sentimentLabel = some "neutral") := by
  refine ⟨rfl, ?_, ?_, ?_, ?_⟩
  · intro ht
    simp only [analyzeTextSentiment]
    rw [if_pos ht]
  · intro hc
    simp [recalcInstagramPost, hc]
  · intro hc
    simp [recalcInstagramPost, hc]
  · intro c hc hne htok
    have hscore : (analyze lex c).score = 0 := by
      simp [analyze, htok]
    have hscale : scaleRecalcScore (analyze lex c).score = 0 := by
      rw [hscore]
      norm_num [scaleRecalcScore, sentimentMaxScale]
    have hrec : recalcInstagramPost lex post =
        ({ post with
            sentimentScore := some (scaleRecalcScore (analyze lex c).score),
            sentimentLabel :=
              some (recalcLabel (scaleRecalcScore (analyze lex c).score)) },
          true) := by
      simp only [recalcInstagramPost, hc]
      rw [if_neg hne]
    refine ⟨by rw [hrec], ?_, ?_⟩
    · rw [hrec]
      simp [hscale]
    · rw [hrec]
      have hlbl : recalcLabel 0 = "neutral" :=
        (recalcLabel_neutral_iff 0).mpr
          (by norm_num [sentimentThresholdPositive, sentimentThresholdNegative])
      simp [hscale, hlbl]

/-- Witness for the amended C5 at the one-word lexicon, the whitespace text
" " and a post with that caption. -/
theorem sentiment_empty_amended_witness :
    analyzeTextSentiment lexGood (some " ") =
      ({ score := 0, label := "Neutral", positiveWords := [],
         negativeWords := [] }, false) ∧
    (recalcInstagramPost lexGood { caption := some " " }).1.sentimentScore =
      some 0 := by
  constructor
  · exact (sentiment_empty_amended lexGood " "
      { caption := some " " }).2.1 (by decide)
  · exact ((sentiment_empty_amended lexGood " "
      { caption := some " " }).2.2.2.2 " " rfl (by decide) (by decide)).2.1

/-- C6: the TikTok branch of HashtagSection.extractHashtags raises a
TypeError on a well-formed TikTok post — one whose hashtags are `{name}`
objects and which the component's own pre-filter admits — because the
branch runs the string pipeline (`tag.startsWith`) on the object. The
aggregation therefore CAN throw on well-formed input, contradicting the
documented no-fatal-errors contract; the spec describes the intent and the
copy-pasted string branch is the slip. -/
theorem extractHashtags_tiktok_throws :
    tiktokHashtagPreFilter { hashtags := [JsTag.obj "sale"] } = true ∧
    jsTagTruthy (JsTag.obj "sale") = true ∧
    extractHashtagsTikTok [JsTag.obj "sale"] =
      Except.error (JsError.typeError "tag.startsWith is not a function") ∧
    extractHashtagsTikTok [JsTag.str "#ootd", JsTag.str "style"] =
      Except.ok ["ootd", "style"] := by
  refine ⟨by decide, by decide, rfl, rfl⟩

/-- C7 counterexample: for the numeric Unix-seconds createTime 1684000000
(2023-05-13 UTC), filterData's date is January 20 1970 — the value was read
as milliseconds, not converted with the claimed factor 1000 — so under
"All (Feb-May)" with no date bounds the post is excluded, while
DashboardOverview's converted date lands in May 2023 and month-matches. -/
theorem tiktok_createtime_claim_counterexample :
    tiktokFilterDate (.num 1684000000) = some ⟨1970, 0, 20⟩ ∧
    msToDate (1684000000 * 1000) = ⟨2023, 4, 13⟩ ∧
    tiktokFilterDate (.num 1684000000) ≠
      some (msToDate (1684000000 * 1000)) ∧
    tiktokFilterPred ⟨"All (Feb-May)", none, none⟩
      { createTime := .num 1684000000 } = false ∧
    dashboardTikTokDate (.num 1684000000) = some ⟨2023, 4, 13⟩ ∧
    dashboardMonthMatches "All (Feb-May)" ⟨2023, 4, 13⟩ = true := by
  refine ⟨by decide, by decide, by decide, by decide, by decide, by decide⟩

/-- C7 amended: the DashboardOverview metric paths detect numeric-vs-string
createTime and multiply a numeric Unix-seconds value by 1000 before
constructing the date; the filterData normalizer performs no such
detection — it passes createTime straight to the Date constructor, so a
numeric value is interpreted directly as epoch milliseconds. On string
createTime both paths use the string's own parse. -/
theorem tiktok_createtime_amended :
    (∀ n : Int, dashboardTikTokDate (.num n) = some (msToDate (n * 1000))) ∧
    (∀ n : Int, tiktokFilterDate (.num n) = some (msToDate n)) ∧
    (∀ p : Option SimpleDate,
      dashboardTikTokDate (.str p) = p ∧ tiktokFilterDate (.str p) = p) := by
  refine ⟨fun n => rfl, fun n => rfl, fun p => ⟨rfl, rfl⟩⟩

/-- C9 counterexample: the Total-Mentions tally of HashtagSection only
lowercases — it strips no "#" and trims nothing — so over the tags
"#Sale", "sale", "SALE" the key "sale" receives 2 and "#Sale" lands under
the separate key "#sale", not the claimed single count of 3. -/
theorem hashtag_tally_claim_counterexample :
    totalMentionsCount ["#Sale", "sale", "SALE"] "sale" = 2 ∧
    totalMentionsCount ["#Sale", "sale", "SALE"] "#sale" = 1 ∧
    (2 : Nat) ≠ 3 := by
  refine ⟨by decide, by decide, by decide⟩

/-- C9 amended: the top-hashtag extraction path normalizes with
"#"-stripping, lowercasing and trimming, so "#Sale", "sale" and "SALE" all
count under the key "sale" (a "#Sale" in front of any tag list adds one to
that key); the Total-Mentions tally only lowercases, so a "#Sale" there
adds nothing to "sale" and instead lands under "#sale". -/
theorem hashtag_tally_amended :
    extractHashtagsNormalize "#Sale" = some "sale" ∧
    extractHashtagsNormalize "sale" = some "sale" ∧
    extractHashtagsNormalize "SALE" = some "sale" ∧
    extractHashtagsCount ["#Sale", "sale", "SALE"] "sale" = 3 ∧
    totalMentionsNormalize "#Sale" = some "#sale" ∧
    totalMentionsNormalize "sale" = some "sale" ∧
    totalMentionsNormalize "SALE" = some "sale" ∧
    (∀ rest : List String,
      extractHashtagsCount ("#Sale" :: rest) "sale" =
        extractHashtagsCount rest "sale" + 1 ∧
      totalMentionsCount ("#Sale" :: rest) "sale" =
        totalMentionsCount rest "sale") := by
  refine ⟨by decide, by decide, by decide, by decide, by decide, by decide,
    by decide, ?_⟩
  intro rest
  constructor
  · have h : extractHashtagsNormalize "#Sale" = some "sale" := by decide
    simp [extractHashtagsCount, tallyCount, h]
  · have h : totalMentionsNormalize "#Sale" = some "#sale" := by decide
    simp [totalMentionsCount, tallyCount, h]
